import Mathlib

/-!
Verification of the reconciliation core of a Docker declarative-resource
provider.  Pure functions and stateful reconciler bodies from the Go source
are embedded shallowly: byte buffers become `List Nat`, the filesystem an
explicit `String → Option (List Nat)` map, the Docker client an explicit
record of observations/results supplied per call, and fallible Go code
returns `Except`/`Option`.
-/

namespace DockerProvider

/-- Go `[]byte`; empty list models `len(b) == 0`. -/
abbrev Bytes := List Nat

/-- `ProviderConfig` from provider.go.  Both the provider-level base value and
the per-operation resolved value use this shape, as in the source. -/
structure ProviderConfig where
  hostURI : String
  hostName : String
  caMaterial : Bytes
  certMaterial : Bytes
  keyMaterial : Bytes
  caFile : String
  certFile : String
  keyFile : String
  certPath : String
  storagePath : String
  ping : Bool
  deriving Repr, DecidableEq

/-- The filesystem visible to `GetResolvedConfig`: `some bytes` means the path
stats successfully and reads to `bytes`; `none` means `os.Stat` fails with
`IsNotExist`.  (Stat failures other than not-exist, and read failures after a
successful stat, are not modelled.) -/
abbrev FileSystem := String → Option Bytes

/-- `os.Stat` succeeding; `os.Stat("")` always fails with not-exist. -/
def statExists (fs : FileSystem) (p : String) : Bool :=
  (p != "") && (fs p).isSome

/-- `filepath.Join` on two components for already-clean inputs. -/
def filepathJoin (a b : String) : String :=
  if a = "" then b else a ++ "/" ++ b

/-- Outcome of a failed resolution: the `bool` is the deferred flag returned
alongside the error by `GetResolvedConfig`. -/
structure ResolveError where
  deferred : Bool
  msg : String
  deriving Repr, DecidableEq

/-- One credential block of `GetResolvedConfig` (the CA, cert and key blocks
in provider.go are three copies of this shape): inline material wins, else an
explicit file, else the conventional `certPath` file; a configured file that
fails to stat/read is a hard error; no file configured resolves to empty. -/
def resolveMaterial (fs : FileSystem) (inline : Bytes) (explicitFile : String)
    (certPath : String) (convName : String) (errMsg : String) :
    Except ResolveError Bytes :=
  if inline ≠ [] then .ok inline
  else
    let file := if explicitFile ≠ "" then explicitFile
      else if certPath ≠ "" then filepathJoin certPath convName else ""
    if file ≠ "" then
      match fs file with
      | some content => .ok content
      | none => .error ⟨false, errMsg⟩
    else .ok []

/-- `(*ProviderConfig).GetResolvedConfig` from provider.go.  `dHost` and
`dHostName` are the resource-level `host`/`hostname` fields (empty string when
unset).  Note the final all-or-nothing TLS check reads the *base* inline
materials `c.caMaterial`/`c.certMaterial`/`c.keyMaterial`, exactly as the
source does (lines 242-252), not the resolved ones. -/
def GetResolvedConfig (fs : FileSystem) (c : ProviderConfig)
    (dHost dHostName : String) : Except ResolveError ProviderConfig :=
  if dHost = "" ∧ c.hostURI = "" then .error ⟨true, "host is not set"⟩
  else
    let hostURI := if dHost ≠ "" then dHost else c.hostURI
    if dHostName = "" ∧ c.hostName = "" then .error ⟨true, "hostname is not set"⟩
    else
      let hostName := if dHostName ≠ "" then dHostName else c.hostName
      let needCertPath :=
        (c.caMaterial = [] ∧ c.caFile = "") ∨
        (c.certMaterial = [] ∧ c.certFile = "") ∨
        (c.keyMaterial = [] ∧ c.keyFile = "")
      let certPath :=
        if needCertPath then
          if c.certPath ≠ "" then c.certPath
          else if c.storagePath ≠ "" then
            filepathJoin (filepathJoin c.certPath "machines") hostName
          else ""
        else ""
      if needCertPath ∧ statExists fs certPath = false then
        .error ⟨true, "error trying to stat cert_path"⟩
      else
        match resolveMaterial fs c.caMaterial c.caFile certPath "ca.pem"
            "error reading ca file" with
        | .error e => .error e
        | .ok ca =>
          match resolveMaterial fs c.certMaterial c.certFile certPath "cert.pem"
              "error reading cert file" with
          | .error e => .error e
          | .ok cert =>
            match resolveMaterial fs c.keyMaterial c.keyFile certPath "key.pem"
                "error reading key file" with
            | .error e => .error e
            | .ok key =>
              if c.caMaterial ≠ [] ∨ c.certMaterial ≠ [] ∨ c.keyMaterial ≠ [] then
                if c.caMaterial = [] then .error ⟨false, "missing CA certificate"⟩
                else if c.certMaterial = [] then
                  .error ⟨false, "missing client certificate"⟩
                else if c.keyMaterial = [] then
                  .error ⟨false, "missing key certificate"⟩
                else .ok ⟨hostURI, hostName, ca, cert, key, "", "", "", "", "", c.ping⟩
              else .ok ⟨hostURI, hostName, ca, cert, key, "", "", "", "", "", c.ping⟩

/-- Base config for the TLS-invariant check: CA given inline, client cert and
key via explicit files that exist with non-empty content. -/
def tlsMixedBase : ProviderConfig :=
  ⟨"tcp://10.0.0.1:2376", "m1", [1], [], [], "", "/tls/cert.pem", "/tls/key.pem",
    "", "", false⟩

/-- Filesystem for `tlsMixedBase`: cert and key files exist, non-empty. -/
def tlsMixedFs : FileSystem := fun p =>
  if p = "/tls/cert.pem" then some [2]
  else if p = "/tls/key.pem" then some [3]
  else none

/-- Base config whose three materials all come from explicit files. -/
def tlsFilesBase : ProviderConfig :=
  ⟨"tcp://10.0.0.1:2376", "m1", [], [], [], "/tls/ca.pem", "/tls/cert.pem",
    "/tls/key.pem", "", "", false⟩

/-- Filesystem for `tlsFilesBase`: CA and cert files non-empty, key file
exists but is empty, so only two of three materials resolve non-empty. -/
def tlsFilesFs : FileSystem := fun p =>
  if p = "/tls/ca.pem" then some [1]
  else if p = "/tls/cert.pem" then some [2]
  else if p = "/tls/key.pem" then some []
  else none

/-- C1: the all-or-nothing TLS invariant is *not* enforced on the resolved
materials.  With the CA inline and cert/key resolving non-empty from files,
all three materials resolve non-empty yet resolution fails hard with
"missing client certificate" (the final check reads the base inline
materials, not the resolved ones); and with all three coming from files of
which the key file is empty, exactly two resolve non-empty yet resolution
succeeds, returning a bundle with an empty key. -/
theorem tls_invariant_checked_on_base_not_resolved :
    (GetResolvedConfig tlsMixedFs tlsMixedBase "" "" =
      .error ⟨false, "missing client certificate"⟩) ∧
    (tlsMixedBase.caMaterial ≠ [] ∧ tlsMixedFs "/tls/cert.pem" = some [2] ∧
      tlsMixedFs "/tls/key.pem" = some [3]) ∧
    (GetResolvedConfig tlsFilesFs tlsFilesBase "" "" =
      .ok ⟨"tcp://10.0.0.1:2376", "m1", [1], [2], [], "", "", "", "", "", false⟩) := by
  refine ⟨by rfl, ⟨by decide, by decide, by decide⟩, by rfl⟩

/-! ## Container reconciler: post-start convergence wait
(resource_container.go, `resourceDockerContainerRead`, lines 838-886) -/

/-- The fields of `container.State` consulted by the poll loop, as reported by
`InspectContainer`. `finishedAt` is a timestamp; `time.Time.After` becomes
`>` on `Nat`, with `0` the zero instant. -/
structure ContainerState where
  running : Bool
  finishedAt : Nat
  errMsg : String
  deriving Repr, DecidableEq

/-- How one call to `resourceDockerContainerRead` returned. -/
inductive ReadResult where
  /-- Fell through the loop with an acceptable state; network fields set. -/
  | okRunning
  /-- Not just created and not running while must-run: returned the result of
  `resourceDockerContainerDelete` (the refresh-path teardown). -/
  | deletedNotCreated
  /-- The container finished after the creation instant: deleted it and
  returned the fatal error embedding the daemon's exit error text. -/
  | exitedError (msg : String)
  /-- Exhausted the loop still not running while must-run: deleted it and
  returned the fatal failed-to-reach-running-state error. -/
  | failedRunningError (msg : String)
  deriving Repr, DecidableEq

/-- Observable effects of one read call: its result, how many times it called
`InspectContainer`, how many times it issued `resourceDockerContainerDelete`,
and the total milliseconds slept. -/
structure ReadOut where
  result : ReadResult
  polls : Nat
  deletes : Nat
  sleptMs : Nat
  deriving Repr, DecidableEq

/-- `sleepTime := 500 * time.Millisecond`. -/
def sleepTimeMs : Nat := 500

/-- The check after the `for` loop: not running while must-run is fatal, with
a delete issued first; otherwise the read succeeds. -/
def afterPollLoop (id : String) (c : ContainerState) (mustRun : Bool)
    (polls sleptMs : Nat) : ReadOut :=
  if !c.running && mustRun then
    ⟨.failedRunningError ("Container " ++ id ++ " failed to be in running state"),
      polls, 1, sleptMs⟩
  else ⟨.okRunning, polls, 0, sleptMs⟩

/-- The `for i := loops; i > 0; i--` poll loop.  `obs n` is what the `n`-th
`InspectContainer` call (0-based) reports; `polls`/`sleptMs` accumulate. -/
def containerPollLoop (id : String) (obs : Nat → ContainerState) (mustRun : Bool)
    (creationTime : Nat) : Nat → Nat → Nat → ReadOut
  | 0, polls, sleptMs => afterPollLoop id (obs (polls - 1)) mustRun polls sleptMs
  | i + 1, polls, sleptMs =>
    let c := obs polls
    if c.running || (!c.running && !mustRun) then
      afterPollLoop id c mustRun (polls + 1) sleptMs
    else if creationTime = 0 then
      ⟨.deletedNotCreated, polls + 1, 1, sleptMs⟩
    else if creationTime < c.finishedAt then
      ⟨.exitedError ("Container " ++ id ++ " exited after creation, error was: "
          ++ c.errMsg), polls + 1, 1, sleptMs⟩
    else
      containerPollLoop id obs mustRun creationTime i (polls + 1)
        (sleptMs + sleepTimeMs)

/-- The convergence-wait portion of `resourceDockerContainerRead`, entered
once the container was found by the list scan.  `creationTime` is the global
creation-instant marker (`0` = zero value, i.e. no pending creation). -/
def resourceDockerContainerRead (id : String) (obs : Nat → ContainerState)
    (mustRun : Bool) (creationTime : Nat) : ReadOut :=
  let loops := if creationTime ≠ 0 then 30 else 1
  containerPollLoop id obs mustRun creationTime loops 0 0

theorem afterPollLoop_polls (id : String) (c : ContainerState) (mustRun : Bool)
    (polls sleptMs : Nat) : (afterPollLoop id c mustRun polls sleptMs).polls = polls := by
  unfold afterPollLoop; split <;> rfl

theorem afterPollLoop_slept (id : String) (c : ContainerState) (mustRun : Bool)
    (polls sleptMs : Nat) :
    (afterPollLoop id c mustRun polls sleptMs).sleptMs = sleptMs := by
  unfold afterPollLoop; split <;> rfl

theorem containerPollLoop_zero (id : String) (obs : Nat → ContainerState)
    (mustRun : Bool) (ct polls sleptMs : Nat) :
    containerPollLoop id obs mustRun ct 0 polls sleptMs =
      afterPollLoop id (obs (polls - 1)) mustRun polls sleptMs := rfl

theorem containerPollLoop_succ (id : String) (obs : Nat → ContainerState)
    (mustRun : Bool) (ct i polls sleptMs : Nat) :
    containerPollLoop id obs mustRun ct (i + 1) polls sleptMs =
      (if (obs polls).running || (!(obs polls).running && !mustRun) then
        afterPollLoop id (obs polls) mustRun (polls + 1) sleptMs
      else if ct = 0 then ⟨.deletedNotCreated, polls + 1, 1, sleptMs⟩
      else if ct < (obs polls).finishedAt then
        ⟨.exitedError ("Container " ++ id ++ " exited after creation, error was: "
          ++ (obs polls).errMsg), polls + 1, 1, sleptMs⟩
      else containerPollLoop id obs mustRun ct i (polls + 1)
        (sleptMs + sleepTimeMs)) := rfl

theorem containerPollLoop_polls_le (id : String) (obs : Nat → ContainerState)
    (mustRun : Bool) (ct : Nat) :
    ∀ i polls sleptMs,
      (containerPollLoop id obs mustRun ct i polls sleptMs).polls ≤ polls + i := by
  intro i
  induction i with
  | zero =>
    intro polls sleptMs
    rw [containerPollLoop_zero, afterPollLoop_polls]
    omega
  | succ n ih =>
    intro polls sleptMs
    rw [containerPollLoop_succ]
    split
    · rw [afterPollLoop_polls]; omega
    · split
      · show polls + 1 ≤ polls + (n + 1)
        omega
      · split
        · show polls + 1 ≤ polls + (n + 1)
          omega
        · have := ih (polls + 1) (sleptMs + sleepTimeMs)
          omega

theorem containerPollLoop_slept_le (id : String) (obs : Nat → ContainerState)
    (mustRun : Bool) (ct : Nat) :
    ∀ i polls sleptMs,
      (containerPollLoop id obs mustRun ct i polls sleptMs).sleptMs ≤
        sleptMs + i * sleepTimeMs := by
  intro i
  induction i with
  | zero =>
    intro polls sleptMs
    rw [containerPollLoop_zero, afterPollLoop_slept]
    omega
  | succ n ih =>
    intro polls sleptMs
    rw [containerPollLoop_succ]
    split
    · rw [afterPollLoop_slept]; omega
    · split
      · show sleptMs ≤ sleptMs + (n + 1) * sleepTimeMs
        omega
      · split
        · show sleptMs ≤ sleptMs + (n + 1) * sleepTimeMs
          omega
        · have := ih (polls + 1) (sleptMs + sleepTimeMs)
          have harith : (n + 1) * sleepTimeMs = sleepTimeMs + n * sleepTimeMs := by
            rw [Nat.succ_mul]; omega
          omega

theorem containerPollLoop_once_of_not_created (id : String)
    (obs : Nat → ContainerState) (mustRun : Bool) (sleptMs : Nat) :
    (containerPollLoop id obs mustRun 0 1 0 sleptMs).polls = 1 ∧
      (containerPollLoop id obs mustRun 0 1 0 sleptMs).sleptMs = sleptMs := by
  show (containerPollLoop id obs mustRun 0 (0 + 1) 0 sleptMs).polls = 1 ∧ _
  rw [containerPollLoop_succ]
  split
  · exact ⟨afterPollLoop_polls .., afterPollLoop_slept ..⟩
  · rw [if_pos rfl]
    exact ⟨rfl, rfl⟩

/-- C2: the poll budget of a read.  With no pending creation instant
(marker `0`, a plain refresh) the container is inspected exactly once and
nothing is slept; with a pending creation instant (the call that just created
the container) the loop inspects at most 30 times with 500 ms spacing, a
bounded total sleep of at most 15000 ms. -/
theorem containerRead_poll_budget (id : String) (obs : Nat → ContainerState)
    (mustRun : Bool) (ct : Nat) :
    ((resourceDockerContainerRead id obs mustRun 0).polls = 1 ∧
      (resourceDockerContainerRead id obs mustRun 0).sleptMs = 0) ∧
    ((resourceDockerContainerRead id obs mustRun (ct + 1)).polls ≤ 30 ∧
      (resourceDockerContainerRead id obs mustRun (ct + 1)).sleptMs ≤
        30 * sleepTimeMs) := by
  constructor
  · have h := containerPollLoop_once_of_not_created id obs mustRun 0
    simpa [resourceDockerContainerRead] using h
  · constructor
    · have h := containerPollLoop_polls_le id obs mustRun (ct + 1) 30 0 0
      simpa [resourceDockerContainerRead] using h
    · have h := containerPollLoop_slept_le id obs mustRun (ct + 1) 30 0 0
      simpa [resourceDockerContainerRead] using h

theorem containerPollLoop_exhaust (id : String) (obs : Nat → ContainerState)
    (ct : Nat) :
    ∀ i polls sleptMs,
      (∀ k, k < i + 1 → (obs (polls + k)).running = false ∧
        (obs (polls + k)).finishedAt ≤ ct + 1) →
      containerPollLoop id obs true (ct + 1) (i + 1) polls sleptMs =
        afterPollLoop id (obs (polls + i)) true (polls + i + 1)
          (sleptMs + (i + 1) * sleepTimeMs) := by
  intro i
  induction i with
  | zero =>
    intro polls sleptMs h
    have h0 := h 0 (by omega)
    rw [Nat.add_zero] at h0
    rw [containerPollLoop_succ, if_neg (by simp [h0.1]),
      if_neg (by omega : ¬(ct + 1 = 0)), if_neg (by omega : ¬(ct + 1 < (obs polls).finishedAt)),
      containerPollLoop_zero]
    simp
  | succ n ih =>
    intro polls sleptMs h
    have h0 := h 0 (by omega)
    rw [Nat.add_zero] at h0
    rw [containerPollLoop_succ, if_neg (by simp [h0.1]),
      if_neg (by omega : ¬(ct + 1 = 0)), if_neg (by omega : ¬(ct + 1 < (obs polls).finishedAt)),
      ih (polls + 1) (sleptMs + sleepTimeMs) (fun k hk => by
        have := h (k + 1) (by omega)
        rwa [show polls + (k + 1) = polls + 1 + k by omega] at this)]
    rw [show polls + 1 + n = polls + (n + 1) by omega,
      show polls + (n + 1) + 1 = polls + (n + 1) + 1 by rfl]
    have harith : sleptMs + sleepTimeMs + (n + 1) * sleepTimeMs =
        sleptMs + (n + 1 + 1) * sleepTimeMs := by ring
    rw [harith]

/-- C3: a just-created container (pending creation instant `ct + 1`) that is
never observed running across all 30 poll attempts, and whose finish time
never moves past the creation instant, makes the read fail with the fatal
failed-to-reach-running-state error, after exactly 30 inspections and with
`resourceDockerContainerDelete` issued exactly once before the error. -/
theorem containerRead_exhaustion_fails_and_deletes_once (id : String)
    (obs : Nat → ContainerState) (ct : Nat)
    (h : ∀ k, k < 30 → (obs k).running = false ∧ (obs k).finishedAt ≤ ct + 1) :
    resourceDockerContainerRead id obs true (ct + 1) =
      ⟨.failedRunningError ("Container " ++ id ++ " failed to be in running state"),
        30, 1, 30 * sleepTimeMs⟩ := by
  have hloops : resourceDockerContainerRead id obs true (ct + 1) =
      containerPollLoop id obs true (ct + 1) 30 0 0 := by
    simp [resourceDockerContainerRead]
  rw [hloops]
  show containerPollLoop id obs true (ct + 1) (29 + 1) 0 0 = _
  rw [containerPollLoop_exhaust id obs ct 29 0 0 (fun k hk => by
    simpa using h k (by omega))]
  have h29 := (h 29 (by omega)).1
  simp only [Nat.zero_add, Nat.add_zero] at *
  simp [afterPollLoop, h29]

/-- C3 witness: a container constantly observed stopped with finish time at
the zero instant, creation marker `1`, `must_run = true`. -/
theorem containerRead_exhaustion_witness :
    (∀ k, k < 30 →
      ((fun _ => (⟨false, 0, ""⟩ : ContainerState)) k).running = false ∧
      ((fun _ => (⟨false, 0, ""⟩ : ContainerState)) k).finishedAt ≤ 0 + 1) ∧
    resourceDockerContainerRead "c0" (fun _ => ⟨false, 0, ""⟩) true (0 + 1) =
      ⟨.failedRunningError ("Container " ++ "c0" ++ " failed to be in running state"),
        30, 1, 30 * sleepTimeMs⟩ :=
  ⟨fun _ _ => ⟨rfl, Nat.zero_le _⟩,
    containerRead_exhaustion_fails_and_deletes_once "c0" (fun _ => ⟨false, 0, ""⟩) 0
      (fun _ _ => ⟨rfl, Nat.zero_le _⟩)⟩

theorem containerPollLoop_exit (id : String) (obs : Nat → ContainerState)
    (ct : Nat) :
    ∀ j i polls sleptMs, j < i →
      (∀ k, k < j → (obs (polls + k)).running = false ∧
        (obs (polls + k)).finishedAt ≤ ct + 1) →
      (obs (polls + j)).running = false →
      ct + 1 < (obs (polls + j)).finishedAt →
      containerPollLoop id obs true (ct + 1) i polls sleptMs =
        ⟨.exitedError ("Container " ++ id ++ " exited after creation, error was: "
          ++ (obs (polls + j)).errMsg), polls + j + 1, 1,
          sleptMs + j * sleepTimeMs⟩ := by
  intro j
  induction j with
  | zero =>
    intro i polls sleptMs hji _ hrun hfin
    simp only [Nat.add_zero] at hrun hfin
    obtain ⟨m, rfl⟩ : ∃ m, i = m + 1 := ⟨i - 1, by omega⟩
    rw [containerPollLoop_succ, if_neg (by simp [hrun]),
      if_neg (by omega : ¬(ct + 1 = 0)), if_pos hfin]
    simp
  | succ n ih =>
    intro i polls sleptMs hji h hrun hfin
    obtain ⟨m, rfl⟩ : ∃ m, i = m + 1 := ⟨i - 1, by omega⟩
    have h0 := h 0 (by omega)
    rw [Nat.add_zero] at h0
    rw [containerPollLoop_succ, if_neg (by simp [h0.1]),
      if_neg (by omega : ¬(ct + 1 = 0)), if_neg (by omega : ¬(ct + 1 < (obs polls).finishedAt)),
      ih m (polls + 1) (sleptMs + sleepTimeMs) (by omega)
        (fun k hk => by
          have := h (k + 1) (by omega)
          rwa [show polls + (k + 1) = polls + 1 + k by omega] at this)
        (by rwa [show polls + 1 + n = polls + (n + 1) by omega])
        (by rwa [show polls + 1 + n = polls + (n + 1) by omega])]
    rw [show polls + 1 + n = polls + (n + 1) by omega]
    have harith : sleptMs + sleepTimeMs + n * sleepTimeMs =
        sleptMs + (n + 1) * sleepTimeMs := by ring
    rw [harith]

/-- C4: a just-created, must-run container observed not running whose finish
time moved past the creation instant at poll attempt `j` (after `j` quiet
attempts) makes the read delete the container (exactly one delete issuance)
and return the fatal error embedding the daemon-reported exit error text. -/
theorem containerRead_immediate_exit_error (id : String)
    (obs : Nat → ContainerState) (ct j : Nat) (hj : j < 30)
    (hbefore : ∀ k, k < j → (obs k).running = false ∧ (obs k).finishedAt ≤ ct + 1)
    (hrun : (obs j).running = false)
    (hfin : ct + 1 < (obs j).finishedAt) :
    resourceDockerContainerRead id obs true (ct + 1) =
      ⟨.exitedError ("Container " ++ id ++ " exited after creation, error was: "
        ++ (obs j).errMsg), j + 1, 1, j * sleepTimeMs⟩ := by
  have hloops : resourceDockerContainerRead id obs true (ct + 1) =
      containerPollLoop id obs true (ct + 1) 30 0 0 := by
    simp [resourceDockerContainerRead]
  rw [hloops]
  rw [containerPollLoop_exit id obs ct j 30 0 0 hj
    (fun k hk => by simpa using hbefore k hk) (by simpa using hrun)
    (by simpa using hfin)]
  simp

/-- C4 witness: container reported stopped with finish time `5` and exit
error "boom" on the very first poll, creation marker `1`. -/
theorem containerRead_immediate_exit_witness :
    0 < 30 ∧
    ((fun _ => (⟨false, 5, "boom"⟩ : ContainerState)) 0).running = false ∧
    0 + 1 < ((fun _ => (⟨false, 5, "boom"⟩ : ContainerState)) 0).finishedAt ∧
    resourceDockerContainerRead "c1" (fun _ => ⟨false, 5, "boom"⟩) true (0 + 1) =
      ⟨.exitedError ("Container " ++ "c1" ++ " exited after creation, error was: "
        ++ "boom"), 0 + 1, 1, 0 * sleepTimeMs⟩ :=
  ⟨by omega, rfl, by decide,
    containerRead_immediate_exit_error "c1" (fun _ => ⟨false, 5, "boom"⟩) 0 0
      (by omega) (fun _ hk => absurd hk (by omega)) rfl (by decide)⟩

/-! ## Delete idempotency across resource kinds
(resource_network.go, unnamed volume file, unnamed image file,
resource_container.go) -/

/-- Result of a client remove/stop verb: success, the distinguishable
not-found condition, or any other error. -/
inductive RemoveResult where
  | ok
  | notFound
  | otherErr (msg : String)
  deriving Repr, DecidableEq

/-- What a delete handler returns: `err = none` is success; `idCleared` is
whether `d.SetId("")` ran. -/
structure DeleteOut where
  err : Option String
  idCleared : Bool
  deriving Repr, DecidableEq

/-- `resourceDockerNetworkDelete`: a remove error other than `NoSuchNetwork`
is fatal; not-found falls through to clearing the identity. -/
def resourceDockerNetworkDelete (r : RemoveResult) : DeleteOut :=
  match r with
  | .otherErr e => ⟨some ("Error deleting network: " ++ e), false⟩
  | _ => ⟨none, true⟩

/-- `resourceDockerVolumeDelete`: a remove error other than `ErrNoSuchVolume`
is fatal; not-found falls through to clearing the identity. -/
def resourceDockerVolumeDelete (r : RemoveResult) : DeleteOut :=
  match r with
  | .otherErr e => ⟨some ("Error deleting volume: " ++ e), false⟩
  | _ => ⟨none, true⟩

/-- `resourceDockerImageDelete` (context-threaded version): no-op when `keep`
is set, otherwise the result of `RemoveImageExtended` is returned verbatim —
including the `ErrNoSuchImage` not-found error. -/
def resourceDockerImageDelete (keep : Bool) (r : RemoveResult) : DeleteOut :=
  if keep then ⟨none, false⟩
  else
    match r with
    | .ok => ⟨none, false⟩
    | .notFound => ⟨some "no such image", false⟩
    | .otherErr e => ⟨some e, false⟩

/-- `resourceDockerContainerDelete`: an optional timed stop first (any stop
error is fatal), then a forced remove whose error — the not-found one
included — is wrapped and returned; identity is cleared only on success. -/
def resourceDockerContainerDelete (graceSeconds : Nat) (stopErr : Option String)
    (r : RemoveResult) : DeleteOut :=
  match (if graceSeconds > 0 then stopErr else none) with
  | some e => ⟨some ("Error stopping container: " ++ e), false⟩
  | none =>
    match r with
    | .ok => ⟨none, true⟩
    | .notFound => ⟨some "Error deleting container: no such container", false⟩
    | .otherErr e => ⟨some ("Error deleting container: " ++ e), false⟩

/-- C5 counterexample: with the client reporting not-found on the remove
call, container delete (no grace period) and image delete (`keep = false`)
both return errors, so delete of an already-absent resource is *not*
error-free for every resource kind. -/
theorem delete_not_found_errors_for_image_and_container :
    (resourceDockerContainerDelete 0 none .notFound).err =
      some "Error deleting container: no such container" ∧
    (resourceDockerContainerDelete 0 none .notFound).idCleared = false ∧
    (resourceDockerImageDelete false .notFound).err = some "no such image" := by
  refine ⟨rfl, rfl, rfl⟩

/-- C5 amended: not-found on remove is swallowed — with the identity cleanly
cleared — for networks and volumes only; image delete returns the client's
not-found error verbatim and container delete wraps it in a fatal error,
whatever the grace period and stop outcome. -/
theorem delete_not_found_idempotency_by_kind (g : Nat) (stopErr : Option String) :
    resourceDockerNetworkDelete .notFound = ⟨none, true⟩ ∧
    resourceDockerVolumeDelete .notFound = ⟨none, true⟩ ∧
    (resourceDockerImageDelete false .notFound).err.isSome = true ∧
    (resourceDockerContainerDelete g stopErr .notFound).err.isSome = true ∧
    (resourceDockerContainerDelete g stopErr .notFound).idCleared = false := by
  refine ⟨rfl, rfl, rfl, ?_, ?_⟩ <;>
    · unfold resourceDockerContainerDelete
      rcases hg : (if g > 0 then stopErr else none) with _ | e <;> simp

/-! ## Network reconciler: create-time observed state
(resource_network.go, `resourceDockerNetworkCreate`, lines 192-209) -/

/-- The request-time `dc.CreateNetworkOptions` fields relevant to observed
state. -/
structure CreateNetworkOptions where
  name : String
  driver : String
  options : List (String × String)
  internal : Bool
  deriving Repr, DecidableEq

/-- The `dc.Network` value echoed back by `CreateNetwork`. -/
structure Network where
  id : String
  name : String
  scope : String
  driver : String
  options : List (String × String)
  internal : Bool
  deriving Repr, DecidableEq

/-- Observed state written by a successful network create. -/
structure NetworkState where
  id : String
  name : String
  scope : String
  driver : String
  options : List (String × String)
  internal : Bool
  deriving Repr, DecidableEq

/-- The `d.SetId`/`d.Set` tail of `resourceDockerNetworkCreate`: name, scope,
driver and options come from the create *response*; only `internal` is
carried forward from the request-time create options. -/
def resourceDockerNetworkCreate (createOpts : CreateNetworkOptions)
    (retNetwork : Network) : NetworkState :=
  ⟨retNetwork.id, retNetwork.name, retNetwork.scope, retNetwork.driver,
    retNetwork.options, createOpts.internal⟩

/-- Request whose options the runtime fails to echo back. -/
def echoLossOpts : CreateNetworkOptions :=
  ⟨"n1", "bridge", [("mtu", "1500")], true⟩

/-- Create response echoing an empty options map. -/
def echoLossRet : Network := ⟨"id1", "n1", "local", "bridge", [], false⟩

/-- C6 counterexample: when the runtime echoes different options in the
create response, the observed "options" equals the response value, not the
request-time value, refuting the claim that both "internal" and "options"
are carried forward from the create options. -/
theorem network_create_options_from_response_counterexample :
    (resourceDockerNetworkCreate echoLossOpts echoLossRet).options ≠
      echoLossOpts.options ∧
    (resourceDockerNetworkCreate echoLossOpts echoLossRet).options =
      echoLossRet.options ∧
    (resourceDockerNetworkCreate echoLossOpts echoLossRet).internal =
      echoLossOpts.internal := by
  refine ⟨by decide, rfl, rfl⟩

/-- C6 amended: after a successful network create only the "internal" flag is
carried forward from the request-time create options; "options" — like name,
scope and driver — is taken from the runtime's create response. -/
theorem network_create_state_sources (createOpts : CreateNetworkOptions)
    (retNetwork : Network) :
    (resourceDockerNetworkCreate createOpts retNetwork).internal =
      createOpts.internal ∧
    (resourceDockerNetworkCreate createOpts retNetwork).options =
      retNetwork.options ∧
    (resourceDockerNetworkCreate createOpts retNetwork).driver =
      retNetwork.driver ∧
    (resourceDockerNetworkCreate createOpts retNetwork).scope =
      retNetwork.scope := by
  exact ⟨rfl, rfl, rfl, rfl⟩

/-! ## Container create: source-image resolution
(resource_container.go, `fetchLocalImages` lines 1076-1098 and
`resourceDockerContainerCreate` lines 591-602) -/

/-- One `dc.APIImages` entry from `ListImages`. -/
structure APIImages where
  id : String
  repoTags : List String
  deriving Repr, DecidableEq

/-- One Go map assignment `data.DockerImages[k] = img`, on an association
list where the newest binding shadows older ones (as `List.lookup` finds the
most recent first). -/
def dockerImagesInsert (m : List (String × APIImages)) (k : String)
    (img : APIImages) : List (String × APIImages) :=
  (k, img) :: m

/-- The per-image body of the `fetchLocalImages` loop: store the short ID
(first 12 characters), the full ID and every repo tag. -/
def fetchLocalImagesStep (m : List (String × APIImages)) (img : APIImages) :
    List (String × APIImages) :=
  img.repoTags.foldl (fun acc t => dockerImagesInsert acc t img)
    (dockerImagesInsert (dockerImagesInsert m (img.id.take 12) img) img.id img)

/-- `fetchLocalImages`: index every listed image by short ID, full ID and
each repo tag. -/
def fetchLocalImages (images : List APIImages) : List (String × APIImages) :=
  images.foldl fetchLocalImagesStep []

/-- `_, ok := data.DockerImages[k]`. -/
def dockerImagesContains (m : List (String × APIImages)) (k : String) : Bool :=
  (m.lookup k).isSome

/-- Whether image `img` is stored in the index under key `k`. -/
def imageKeyMatches (img : APIImages) (k : String) : Bool :=
  k == img.id.take 12 || k == img.id || img.repoTags.contains k

/-- The image-lookup head of `resourceDockerContainerCreate`: try the bare
reference against the freshly built index, then once more with an implicit
":latest" suffix, else fail before creating anything. -/
def resolveContainerImage (images : List APIImages) (ref : String) :
    Except String String :=
  let m := fetchLocalImages images
  if dockerImagesContains m ref then .ok ref
  else if dockerImagesContains m (ref ++ ":latest") then .ok (ref ++ ":latest")
  else .error ("Unable to find image " ++ ref)

/-- Client verbs issued by the image-resolution phase of container create. -/
inductive ClientCall where
  | listImages
  | createContainer (image : String)
  deriving Repr, DecidableEq

/-- The front of `resourceDockerContainerCreate` as a call trace: list local
images, resolve the reference, and only on success reach the
`CreateContainer` call (with the resolved image in the create options). -/
def containerCreateImagePhase (images : List APIImages) (ref : String) :
    Except String String × List ClientCall :=
  match resolveContainerImage images ref with
  | .ok img => (.ok img, [.listImages, .createContainer img])
  | .error e => (.error e, [.listImages])

theorem dockerImagesContains_insert (m : List (String × APIImages))
    (k k2 : String) (img : APIImages) :
    dockerImagesContains (dockerImagesInsert m k2 img) k =
      (k == k2 || dockerImagesContains m k) := by
  unfold dockerImagesContains dockerImagesInsert
  rw [List.lookup_cons]
  rcases h : k == k2 <;> simp [h]

theorem dockerImagesContains_tagFold (img : APIImages) (k : String) :
    ∀ (tags : List String) (m : List (String × APIImages)),
      dockerImagesContains
        (tags.foldl (fun acc t => dockerImagesInsert acc t img) m) k =
      (tags.contains k || dockerImagesContains m k) := by
  intro tags
  induction tags with
  | nil => intro m; simp
  | cons t ts ih =>
    intro m
    rw [List.foldl_cons, ih, dockerImagesContains_insert, List.contains_cons]
    cases k == t <;> cases ts.contains k <;> cases dockerImagesContains m k <;> rfl

theorem dockerImagesContains_step (m : List (String × APIImages))
    (img : APIImages) (k : String) :
    dockerImagesContains (fetchLocalImagesStep m img) k =
      (imageKeyMatches img k || dockerImagesContains m k) := by
  unfold fetchLocalImagesStep imageKeyMatches
  rw [dockerImagesContains_tagFold, dockerImagesContains_insert,
    dockerImagesContains_insert]
  rcases h1 : k == img.id.take 12 <;> rcases h2 : k == img.id <;>
    rcases h3 : img.repoTags.contains k <;> simp [h1, h2, h3]

theorem dockerImagesContains_foldl (k : String) :
    ∀ (images : List APIImages) (m : List (String × APIImages)),
      dockerImagesContains (images.foldl fetchLocalImagesStep m) k =
        (images.any (fun img => imageKeyMatches img k) ||
          dockerImagesContains m k) := by
  intro images
  induction images with
  | nil => intro m; simp
  | cons img imgs ih =>
    intro m
    rw [List.foldl_cons, ih, dockerImagesContains_step]
    rcases h1 : imageKeyMatches img k <;>
      rcases h2 : imgs.any (fun i => imageKeyMatches i k) <;> simp [h1, h2]

/-- C7: the local-image index built by container create holds exactly the
keys that are some listed image's 12-character short ID, full ID, or one of
its repo tags; the bare reference is resolved against it, retried exactly
once with an implicit ":latest" suffix, and only when both lookups miss does
create fail with the image-not-found error, with no `CreateContainer` call
issued. -/
theorem container_image_resolution_index_and_latest_retry
    (images : List APIImages) (ref : String) :
    (∀ k, dockerImagesContains (fetchLocalImages images) k = true ↔
      ∃ img ∈ images, k = img.id.take 12 ∨ k = img.id ∨ k ∈ img.repoTags) ∧
    (resolveContainerImage images ref =
      (if images.any (fun img => imageKeyMatches img ref) then .ok ref
       else if images.any (fun img => imageKeyMatches img (ref ++ ":latest")) then
        .ok (ref ++ ":latest")
       else .error ("Unable to find image " ++ ref))) ∧
    ((containerCreateImagePhase images ref).2 =
      if images.any (fun img => imageKeyMatches img ref) then
        [.listImages, .createContainer ref]
      else if images.any (fun img => imageKeyMatches img (ref ++ ":latest")) then
        [.listImages, .createContainer (ref ++ ":latest")]
      else [.listImages]) := by
  have hidx : ∀ k, dockerImagesContains (fetchLocalImages images) k =
      images.any (fun img => imageKeyMatches img k) := by
    intro k
    unfold fetchLocalImages
    rw [dockerImagesContains_foldl]
    simp [dockerImagesContains]
  have hres : resolveContainerImage images ref =
      (if images.any (fun img => imageKeyMatches img ref) then .ok ref
       else if images.any (fun img => imageKeyMatches img (ref ++ ":latest")) then
        .ok (ref ++ ":latest")
       else .error ("Unable to find image " ++ ref)) := by
    simp only [resolveContainerImage]
    rw [hidx, hidx]
  refine ⟨?_, hres, ?_⟩
  · intro k
    rw [hidx]
    simp [List.any_eq_true, imageKeyMatches, or_assoc]
  · unfold containerCreateImagePhase
    rw [hres]
    rcases h1 : images.any (fun img => imageKeyMatches img ref) <;>
      rcases h2 : images.any (fun img => imageKeyMatches img (ref ++ ":latest")) <;>
      simp [h1, h2]

/-! ## Set-identity hashing
(resource_container.go `resourceDockerCapabilitiesHash` lines 477-490;
resource_network.go `resourceDockerIpamConfigHash` lines 115-148).
`hashcode.String` is an external collaborator, so both hashes are modelled
over an arbitrary string hash: equal serializations give equal hashes for
every choice of hash function. -/

/-- The element map Terraform hands a capabilities `SchemaSetFunc`: one entry
per schema field of the block — "add" and "drop" — mapped to the
`fmt.Sprintf("%v", ...)` rendering of that field's set. -/
def capabilitiesElem (addRepr dropRepr : String) : List (String × String) :=
  [("add", addRepr), ("drop", dropRepr)]

/-- The buffer built by `resourceDockerCapabilitiesHash`: it appends the
"add" entry, then looks up a "remove" key (which the capabilities schema
never defines — the field is named "drop"). -/
def resourceDockerCapabilitiesHashBuf (m : List (String × String)) : String :=
  (match m.lookup "add" with
   | some v => v ++ "-"
   | none => "") ++
  (match m.lookup "remove" with
   | some v => v ++ "-"
   | none => "")

/-- `resourceDockerCapabilitiesHash` over an arbitrary `hashcode.String`. -/
def resourceDockerCapabilitiesHash (hashcodeString : String → Int)
    (m : List (String × String)) : Int :=
  hashcodeString (resourceDockerCapabilitiesHashBuf m)

/-- C8: the capabilities set-hash does *not* see the "drop" field: an element
map carries its drop set under the key "drop", but the hash reads "remove",
so any two capability records with equal "add" sets hash identically for
every hash function, whatever their "drop" sets — in particular the concrete
records with drop sets rendered "[NET_ADMIN]" versus "[]". -/
theorem capabilities_hash_ignores_drop (hashcodeString : String → Int)
    (addRepr dropRepr dropRepr2 : String) :
    (capabilitiesElem addRepr dropRepr).lookup "drop" = some dropRepr ∧
    (capabilitiesElem addRepr dropRepr).lookup "remove" = none ∧
    resourceDockerCapabilitiesHash hashcodeString
        (capabilitiesElem addRepr dropRepr) =
      resourceDockerCapabilitiesHash hashcodeString
        (capabilitiesElem addRepr dropRepr2) ∧
    resourceDockerCapabilitiesHash hashcodeString
        (capabilitiesElem "[]" "[NET_ADMIN]") =
      resourceDockerCapabilitiesHash hashcodeString (capabilitiesElem "[]" "[]") := by
  refine ⟨rfl, rfl, rfl, rfl⟩

/-- An IPAM-config set element: the three scalar fields plus the
`aux_address` map, the latter as its entry list in iteration order. -/
structure IpamConfigElem where
  subnet : String
  ipRange : String
  gateway : String
  auxAddress : List (String × String)
  deriving Repr, DecidableEq

/-- The aux-address portion of the buffer: collect the map's keys, sort them
(`sort.Strings`), then append `k ++ "-" ++ value ++ "-"` per key in sorted
order. -/
def auxAddressBuf (aux : List (String × String)) : String :=
  (List.insertionSort (fun a b => a ≤ b) (aux.map Prod.fst)).foldl
    (fun buf k => buf ++ k ++ "-" ++ ((aux.lookup k).getD "") ++ "-") ""

/-- The buffer built by `resourceDockerIpamConfigHash`. -/
def resourceDockerIpamConfigHashBuf (m : IpamConfigElem) : String :=
  m.subnet ++ "-" ++ m.ipRange ++ "-" ++ m.gateway ++ "-" ++
    auxAddressBuf m.auxAddress

/-- `resourceDockerIpamConfigHash` over an arbitrary `hashcode.String`. -/
def resourceDockerIpamConfigHash (hashcodeString : String → Int)
    (m : IpamConfigElem) : Int :=
  hashcodeString (resourceDockerIpamConfigHashBuf m)

theorem lookup_eq_of_perm {l1 l2 : List (String × String)} (h : l1.Perm l2)
    (hnd : (l1.map Prod.fst).Nodup) (k : String) :
    l1.lookup k = l2.lookup k := by
  induction h with
  | nil => rfl
  | cons x _ ih =>
    rw [List.map_cons] at hnd
    rw [List.lookup_cons, List.lookup_cons]
    cases hk : k == x.1
    · exact ih (List.nodup_cons.mp hnd).2
    · rfl
  | swap x y l =>
    rw [List.map_cons, List.map_cons] at hnd
    have hyx : y.1 ≠ x.1 := fun hcontr =>
      (List.nodup_cons.mp hnd).1 (hcontr ▸ List.mem_cons_self _ _)
    rw [List.lookup_cons, List.lookup_cons, List.lookup_cons, List.lookup_cons]
    cases hky : k == y.1 <;> cases hkx : k == x.1
    · simp [hky, hkx]
    · simp [hky, hkx]
    · simp [hky, hkx]
    · have h1 : k = y.1 := by simpa using hky
      have h2 : k = x.1 := by simpa using hkx
      exact absurd (h1.symm.trans h2) hyx
  | trans h1 _ ih1 ih2 =>
    rw [ih1 hnd, ih2 (((h1.map Prod.fst).nodup_iff).mp hnd)]

/-- C9: the IPAM-config set-hash is insensitive to the iteration order of the
auxiliary-address map: for any two enumeration orders of the same map (a
permutation, with no duplicate keys) the serialized buffer — and hence the
hash, for every hash function — is identical, because the keys are sorted
before serialization. -/
theorem ipam_hash_iteration_order_independent (hashcodeString : String → Int)
    (subnet ipRange gateway : String) (aux1 aux2 : List (String × String))
    (hperm : aux1.Perm aux2) (hnd : (aux1.map Prod.fst).Nodup) :
    resourceDockerIpamConfigHash hashcodeString
        ⟨subnet, ipRange, gateway, aux1⟩ =
      resourceDockerIpamConfigHash hashcodeString
        ⟨subnet, ipRange, gateway, aux2⟩ := by
  have hkeys : List.insertionSort (fun a b => a ≤ b) (aux1.map Prod.fst) =
      List.insertionSort (fun a b => a ≤ b) (aux2.map Prod.fst) := by
    refine List.eq_of_perm_of_sorted ?_ (List.sorted_insertionSort _ _)
      (List.sorted_insertionSort _ _)
    exact (List.perm_insertionSort _ _).trans
      ((hperm.map Prod.fst).trans (List.perm_insertionSort _ _).symm)
  have hfold : ∀ (ks : List String) (buf : String),
      ks.foldl (fun b k => b ++ k ++ "-" ++ ((aux1.lookup k).getD "") ++ "-") buf =
      ks.foldl (fun b k => b ++ k ++ "-" ++ ((aux2.lookup k).getD "") ++ "-") buf := by
    intro ks
    induction ks with
    | nil => intro buf; rfl
    | cons k ks ih =>
      intro buf
      rw [List.foldl_cons, List.foldl_cons, lookup_eq_of_perm hperm hnd k]
      exact ih _
  have hbuf : auxAddressBuf aux1 = auxAddressBuf aux2 := by
    unfold auxAddressBuf
    rw [hkeys]
    exact hfold _ ""
  unfold resourceDockerIpamConfigHash resourceDockerIpamConfigHashBuf
  rw [hbuf]

/-- C9 witness: the two iteration orders of the map with entries
`("a", "1")` and `("b", "2")`, under the length hash. -/
theorem ipam_hash_iteration_order_witness :
    [("a", "1"), ("b", "2")].Perm [("b", "2"), ("a", "1")] ∧
    ([("a", "1"), ("b", "2")].map Prod.fst).Nodup ∧
    resourceDockerIpamConfigHash (fun s => Int.ofNat s.length)
        ⟨"10.0.0.0/16", "10.0.1.0/24", "10.0.0.1", [("a", "1"), ("b", "2")]⟩ =
      resourceDockerIpamConfigHash (fun s => Int.ofNat s.length)
        ⟨"10.0.0.0/16", "10.0.1.0/24", "10.0.0.1", [("b", "2"), ("a", "1")]⟩ :=
  ⟨by decide, by decide,
    ipam_hash_iteration_order_independent (fun s => Int.ofNat s.length)
      "10.0.0.0/16" "10.0.1.0/24" "10.0.0.1" _ _ (by decide) (by decide)⟩

/-! ## Provider configuration
(provider.go, `Provider` lines 41-116 and `providerConfigure` lines 118-136) -/

/-- The schema value types used by the provider's top-level schema. -/
inductive SchemaType where
  | string
  | bool
  deriving Repr, DecidableEq

/-- The provider schema declared by `Provider()`: exactly these keys, with
these types.  There is no "default_hostname" key. -/
def providerSchema : List (String × SchemaType) :=
  [("default_host", .string),
   ("ca_material", .string), ("ca_file", .string),
   ("cert_material", .string), ("cert_file", .string),
   ("key_material", .string), ("key_file", .string),
   ("cert_path", .string),
   ("storage_path", .string),
   ("ping", .bool)]

/-- `d.Get(k).(string)` in `providerConfigure`: a declared string key yields
its (configured or zero) value; an undeclared key makes `d.Get` return a nil
interface, whose unguarded `.(string)` assertion panics — modelled as
`none`. -/
def providerGetString (vals : String → String) (k : String) : Option String :=
  if providerSchema.lookup k = some .string then some (vals k) else none

/-- `d.Get(k).(bool)`, analogously. -/
def providerGetBool (valsB : String → Bool) (k : String) : Option Bool :=
  if providerSchema.lookup k = some .bool then some (valsB k) else none

/-- Go string to bytes, for the `[]byte(...)` conversions. -/
def strBytes (st : String) : Bytes :=
  st.data.map Char.toNat

/-- `providerConfigure`: builds the base `ProviderConfig` from the resource
data, reading each field with an unguarded type assertion, in source order;
`none` is the panic on the first failing assertion. -/
def providerConfigure (vals : String → String) (valsB : String → Bool) :
    Option ProviderConfig := do
  let hostURI ← providerGetString vals "default_host"
  let hostName ← providerGetString vals "default_hostname"
  let caMaterial ← providerGetString vals "ca_material"
  let certMaterial ← providerGetString vals "cert_material"
  let keyMaterial ← providerGetString vals "key_material"
  let caFile ← providerGetString vals "ca_file"
  let certFile ← providerGetString vals "cert_file"
  let keyFile ← providerGetString vals "key_file"
  let certPath ← providerGetString vals "cert_path"
  let storagePath ← providerGetString vals "storage_path"
  let ping ← providerGetBool valsB "ping"
  some ⟨hostURI, hostName, strBytes caMaterial, strBytes certMaterial,
    strBytes keyMaterial, caFile, certFile, keyFile, certPath, storagePath, ping⟩

/-- C10: the provider schema declares "default_host" but no
"default_hostname" key, yet `providerConfigure` reads "default_hostname"
through an unguarded string assertion; consequently the read cannot succeed
for any configured values — the configure entry point always hits the nil
assertion — and the base host-identity name is never populated from declared
provider configuration. -/
theorem provider_configure_default_hostname_undeclared
    (vals : String → String) (valsB : String → Bool) :
    providerSchema.lookup "default_hostname" = none ∧
    (providerSchema.map Prod.fst).contains "default_host" = true ∧
    providerGetString vals "default_hostname" = none ∧
    providerConfigure vals valsB = none := by
  have h1 : providerGetString vals "default_host" = some (vals "default_host") := by
    unfold providerGetString
    rw [if_pos (by decide)]
  have h2 : providerGetString vals "default_hostname" = none := by
    unfold providerGetString
    rw [if_neg (by decide)]
  refine ⟨by decide, by decide, h2, ?_⟩
  simp [providerConfigure, h1, h2]

end DockerProvider
